import Mathlib

/-!
Verification of the stats aggregation pipeline of the package-analytics dashboard.

The repository contains two variants of the pipeline: the refactored multi-page
application (Home.py together with utils.py) and the legacy single-file
application (app.py).  Definitions without a prefix embed the Home.py/utils.py
variant; definitions prefixed with `app_` embed the app.py variant where the
two differ.

A download series is the `downloads` column of the dataframe returned by the
warehouse query, ordered ascending by date; values are modelled as integers.
Pandas mean and max over a possibly empty series are modelled as `Option`
(respectively `WithBot`) valued: the empty series yields `none` / bottom,
modelling the NaN that pandas produces there.
-/

/-- Model of pandas `Series.mean()` over the `downloads` column: the mean as a
rational for a nonempty series, `none` (NaN) for the empty series. -/
def seriesMean (l : List Int) : Option ℚ :=
  if l.isEmpty then none else some ((l.sum : ℚ) / (l.length : ℚ))

/-- Model of pandas `DataFrame.tail(n)`: the last `min n (length l)` rows. -/
def tailRows (n : Nat) (l : List Int) : List Int := l.drop (l.length - n)

/-- Model of pandas `DataFrame.head(n)`: the first `min n (length l)` rows. -/
def headRows (n : Nat) (l : List Int) : List Int := l.take n

/-- Code: today = df_pypi.iloc[-1] if not df_pypi.empty else a row with
downloads = 0.  This is the downloads field of that row. -/
def todayDownloads (l : List Int) : Int := (l.getLast?).getD 0

/-- Code: yesterday = df_pypi.iloc[-2] if len(df_pypi) > 1 else a row with
downloads = 0.  This is the downloads field of that row. -/
def yesterdayDownloads (l : List Int) : Int :=
  if 1 < l.length then (l.dropLast.getLast?).getD 0 else 0

/-- Code: avg_downloads = df_pypi[downloads].mean(). -/
def avg_downloads (l : List Int) : Option ℚ := seriesMean l

/-- Code: max_downloads = df_pypi[downloads].max(); pandas max of an empty
series is NaN, modelled as bottom. -/
def max_downloads (l : List Int) : WithBot Int := l.maximum

/-- Code: daily_change = today[downloads] - yesterday[downloads]. -/
def daily_change (l : List Int) : Int := todayDownloads l - yesterdayDownloads l

/-- Code: avg_last_week = df_pypi.tail(7)[downloads].mean(). -/
def avg_last_week (l : List Int) : Option ℚ := seriesMean (tailRows 7 l)

/-- Home.py: avg_previous_week = df_pypi.tail(14).head(7)[downloads].mean()
if len(df_pypi) >= 14 else 0. -/
def avg_previous_week (l : List Int) : Option ℚ :=
  if 14 ≤ l.length then seriesMean (headRows 7 (tailRows 14 l)) else some 0

/-- app.py: avg_previous_week = df_pypi.tail(14).head(7)[downloads].mean(),
with no length guard. -/
def app_avg_previous_week (l : List Int) : Option ℚ :=
  seriesMean (headRows 7 (tailRows 14 l))

/-- Code: current_peak = today[downloads]. -/
def current_peak (l : List Int) : Int := todayDownloads l

/-- Code: previous_peak = df_pypi[:-1][downloads].max() if len(df_pypi) > 1
else 0.  For a series of length at least 2 the sliced series is nonempty, so
the pandas max is an actual value. -/
def previous_peak (l : List Int) : Int :=
  if 1 < l.length then (l.dropLast.maximum).unbot' 0 else 0

/-- Code: peak_change = current_peak - previous_peak. -/
def peak_change (l : List Int) : Int := current_peak l - previous_peak l

/-- C1 counterexample: on the empty download series the code produces NaN
(modelled as `none` / bottom) for mean downloads, the weekly average and the
peak, not the sentinel 0 that the claim asserts for every derived value. -/
theorem c1_counterexample :
    avg_downloads ([] : List Int) = none ∧
    avg_downloads ([] : List Int) ≠ some 0 ∧
    avg_last_week ([] : List Int) = none ∧
    max_downloads ([] : List Int) = ⊥ := by
  refine ⟨rfl, by simp [avg_downloads, seriesMean], rfl, rfl⟩

/-- C1 amended: for the empty download series the metric computation is total
(no exception), and latest, previous, previousPeak — and, in the Home.py
variant, previousWeeklyAverage — equal the sentinel 0; but mean downloads, the
weekly average, the peak, and the app.py variant of previousWeeklyAverage
evaluate to NaN (undefined, modelled as `none` / bottom), not 0. -/
theorem c1_empty_series_metrics :
    todayDownloads [] = 0 ∧
    yesterdayDownloads [] = 0 ∧
    previous_peak [] = 0 ∧
    current_peak [] = 0 ∧
    avg_previous_week [] = some 0 ∧
    avg_downloads ([] : List Int) = none ∧
    avg_last_week ([] : List Int) = none ∧
    app_avg_previous_week ([] : List Int) = none ∧
    max_downloads ([] : List Int) = ⊥ := by
  refine ⟨rfl, rfl, rfl, rfl, rfl, rfl, rfl, rfl, rfl⟩

/-- C2: the peak is the maximum download count over the whole series, the
previous peak is the maximum over all but the last record (0 when the series
has at most one record), and peak_change compares the latest value — not the
current maximum — against the previous peak, so it is negative whenever the
last value lies below the previous peak. -/
theorem c2_peak_metrics (l : List Int) :
    (l ≠ [] → ∃ m : Int, max_downloads l = (m : WithBot Int) ∧ m ∈ l ∧ ∀ x ∈ l, x ≤ m) ∧
    (1 < l.length → previous_peak l ∈ l.dropLast ∧ ∀ x ∈ l.dropLast, x ≤ previous_peak l) ∧
    (l.length ≤ 1 → previous_peak l = 0) ∧
    peak_change l = todayDownloads l - previous_peak l ∧
    (todayDownloads l < previous_peak l → peak_change l < 0) := by
  refine ⟨?_, ?_, ?_, rfl, ?_⟩
  · intro hl
    have hpos : 0 < l.length := List.length_pos.mpr hl
    refine ⟨l.maximum_of_length_pos hpos, ?_, l.maximum_of_length_pos_mem hpos, ?_⟩
    · simp [max_downloads]
    · intro x hx
      exact List.le_maximum_of_length_pos_of_mem hx hpos
  · intro hlen
    have hpos : 0 < l.dropLast.length := by
      rw [List.length_dropLast]; omega
    have hmax : l.dropLast.maximum = (l.dropLast.maximum_of_length_pos hpos : Int) := by
      simp
    have hpp : previous_peak l = l.dropLast.maximum_of_length_pos hpos := by
      simp only [previous_peak, if_pos hlen, hmax, WithBot.unbot'_coe]
    rw [hpp]
    exact ⟨List.maximum_of_length_pos_mem hpos,
      fun x hx => List.le_maximum_of_length_pos_of_mem hx hpos⟩
  · intro hlen
    have : ¬ 1 < l.length := by omega
    simp [previous_peak, this]
  · intro h
    have : peak_change l = todayDownloads l - previous_peak l := rfl
    omega

/-- C2 witness: the constructed series 10, 20, 15 has peak 20, previous peak 20
and peak_change -5 (negative, not clamped to 0). -/
theorem c2_witness :
    (∃ m : Int, max_downloads ([10, 20, 15] : List Int) = (m : WithBot Int) ∧
      m ∈ ([10, 20, 15] : List Int) ∧ ∀ x ∈ ([10, 20, 15] : List Int), x ≤ m) ∧
    (previous_peak ([10, 20, 15] : List Int) ∈ ([10, 20, 15] : List Int).dropLast ∧
      ∀ x ∈ ([10, 20, 15] : List Int).dropLast, x ≤ previous_peak ([10, 20, 15] : List Int)) ∧
    peak_change ([10, 20, 15] : List Int) < 0 :=
  ⟨(c2_peak_metrics [10, 20, 15]).1 (by decide),
   (c2_peak_metrics [10, 20, 15]).2.1 (by decide),
   (c2_peak_metrics [10, 20, 15]).2.2.2.2 (by decide)⟩

/-- C5 counterexample: for a 10-record series of constant value 6, the app.py
variant of previousWeeklyAverage is the mean of the first 7 records, 6, not the
value 0 that the claim asserts for every series with fewer than 14 records. -/
theorem c5_counterexample :
    app_avg_previous_week [6, 6, 6, 6, 6, 6, 6, 6, 6, 6] = some 6 ∧
    app_avg_previous_week [6, 6, 6, 6, 6, 6, 6, 6, 6, 6] ≠ some 0 := by
  have h : headRows 7 (tailRows 14 [6, 6, 6, 6, 6, 6, 6, 6, 6, 6]) =
      ([6, 6, 6, 6, 6, 6, 6] : List Int) := by decide
  constructor
  · unfold app_avg_previous_week
    rw [h]
    norm_num [seriesMean]
  · unfold app_avg_previous_week
    rw [h]
    norm_num [seriesMean]

/-- C5 amended: the weekly average over fewer than 7 records is the mean of all
available records with no zero padding (both variants), and for series of
length at least 14 both variants average exactly the 7 records preceding the
trailing 7; but for series shorter than 14 records only the Home.py variant
defines previousWeeklyAverage as 0 — the app.py variant computes the mean of
the first min(7, n) records instead. -/
theorem c5_weekly_averages (l : List Int) :
    (l.length < 7 → avg_last_week l = seriesMean l) ∧
    (l.length < 14 → avg_previous_week l = some 0) ∧
    (l.length < 14 → app_avg_previous_week l = seriesMean (l.take 7)) ∧
    (14 ≤ l.length → ∃ a b c : List Int, l = a ++ b ++ c ∧ b.length = 7 ∧ c.length = 7 ∧
      avg_previous_week l = seriesMean b ∧ app_avg_previous_week l = seriesMean b) := by
  refine ⟨?_, ?_, ?_, ?_⟩
  · intro h
    have : l.length - 7 = 0 := by omega
    simp [avg_last_week, tailRows, this]
  · intro h
    have : ¬ 14 ≤ l.length := by omega
    simp [avg_previous_week, this]
  · intro h
    have : l.length - 14 = 0 := by omega
    simp [app_avg_previous_week, tailRows, headRows, this]
  · intro h
    refine ⟨l.take (l.length - 14), (l.drop (l.length - 14)).take 7,
      (l.drop (l.length - 14)).drop 7, ?_, ?_, ?_, ?_, ?_⟩
    · rw [List.append_assoc, List.take_append_drop, List.take_append_drop]
    · rw [List.length_take, List.length_drop]; omega
    · rw [List.length_drop, List.length_drop]; omega
    · simp only [avg_previous_week, if_pos h]; rfl
    · rfl

/-- C5 witness: the two short-series conjuncts evaluated on a 2-record series
and the 14-record decomposition on a constant series of length 14. -/
theorem c5_witness :
    avg_last_week ([3, 4] : List Int) = seriesMean [3, 4] ∧
    avg_previous_week ([3, 4] : List Int) = some 0 ∧
    app_avg_previous_week ([3, 4] : List Int) = seriesMean (([3, 4] : List Int).take 7) ∧
    (∃ a b c : List Int, List.replicate 14 (5 : Int) = a ++ b ++ c ∧ b.length = 7 ∧
      c.length = 7 ∧ avg_previous_week (List.replicate 14 5) = seriesMean b ∧
      app_avg_previous_week (List.replicate 14 5) = seriesMean b) :=
  ⟨(c5_weekly_averages [3, 4]).1 (by decide),
   (c5_weekly_averages [3, 4]).2.1 (by decide),
   (c5_weekly_averages [3, 4]).2.2.1 (by decide),
   (c5_weekly_averages (List.replicate 14 5)).2.2.2 (by decide)⟩

/-!
Star event normalization.  A raw star event is its `starred_at` timestamp
reduced to a calendar day, modelled as a day number (Nat).  The groupby-sum of
the per-event rows (each carrying stars = 1) yields, for each day, the number
of events on that day; the reindex over the daily date_range from the earliest
to the latest event date fills missing days with 0.
-/

/-- Model of pandas Series.min() over the event dates (0 on the empty list,
where the source never evaluates it). -/
def listMin (l : List Nat) : Nat := l.minimum.untop' 0

/-- Model of pandas Series.max() over the event dates (0 on the empty list,
where the source never evaluates it). -/
def listMax (l : List Nat) : Nat := l.maximum.unbot' 0

/-- Code: the stars_df built from the raw events when stars_data is truthy —
groupby(date).sum of the unit rows, reindexed over
date_range(min, max, freq = D) with fill_value 0.  Each output pair is
(day, new_stars on that day); the per-day sum of unit rows is the count of
events on that day, and a day absent from the events gets count 0. -/
def normalizeStars (events : List Nat) : List (Nat × Nat) :=
  if events = [] then []
  else (List.range' (listMin events) (listMax events + 1 - listMin events)).map
    (fun d => (d, events.count d))

/-- One row of the normalized stars history: date, new stars on that day,
cumulative stars (running sum), and star_change (first difference of the
new-star column, with the first row equal to its own count). -/
structure StarRecord where
  date : Nat
  stars : Nat
  cumulative_stars : Nat
  star_change : Int
deriving DecidableEq, Repr

/-- Code: the columns cumulative_stars = stars.cumsum() and
star_change = stars.diff().fillna(stars), built in one pass in date order;
acc is the running sum so far and prev the previous day count, none at the
first row. -/
def buildRecords (acc : Nat) (prev : Option Nat) : List (Nat × Nat) → List StarRecord
  | [] => []
  | p :: rest =>
      { date := p.1, stars := p.2, cumulative_stars := acc + p.2,
        star_change := match prev with
          | none => (p.2 : Int)
          | some q => (p.2 : Int) - (q : Int) } :: buildRecords (acc + p.2) (some p.2) rest

/-- Code: stars_history, the records of the normalized stars dataframe. -/
def buildStarsHistory (events : List Nat) : List StarRecord :=
  buildRecords 0 none (normalizeStars events)

theorem buildRecords_length (ps : List (Nat × Nat)) :
    ∀ acc prev, (buildRecords acc prev ps).length = ps.length := by
  induction ps with
  | nil => intro acc prev; rfl
  | cons p rest ih => intro acc prev; simp [buildRecords, ih]

theorem buildRecords_cumulative (ps : List (Nat × Nat)) :
    ∀ acc prev i (hi : i < (buildRecords acc prev ps).length),
      ((buildRecords acc prev ps).get ⟨i, hi⟩).cumulative_stars =
        acc + ((ps.map Prod.snd).take (i + 1)).sum := by
  induction ps with
  | nil => intro acc prev i hi; simp [buildRecords] at hi
  | cons p rest ih =>
    intro acc prev i hi
    match i with
    | 0 => simp [buildRecords]
    | Nat.succ j =>
      have hlen : (buildRecords acc prev (p :: rest)).length = rest.length + 1 := by
        rw [buildRecords_length, List.length_cons]
      have hj : j < (buildRecords (acc + p.2) (some p.2) rest).length := by
        rw [buildRecords_length]
        omega
      have hrec := ih (acc + p.2) (some p.2) j hj
      simp only [buildRecords, List.get_cons_succ] at *
      rw [hrec]
      simp [List.take_succ_cons]
      omega

theorem sum_take_mono (l : List Nat) {m n : Nat} (h : m ≤ n) :
    (l.take m).sum ≤ (l.take n).sum := by
  have h1 : l.take m = (l.take n).take m := by rw [List.take_take, Nat.min_eq_left h]
  rw [h1]
  exact (List.take_sublist m (l.take n)).sum_le_sum (fun a _ => Nat.zero_le a)

theorem listMin_spec (l : List Nat) (h : l ≠ []) :
    listMin l ∈ l ∧ ∀ x ∈ l, listMin l ≤ x := by
  have hpos : 0 < l.length := List.length_pos.mpr h
  have hcoe : listMin l = l.minimum_of_length_pos hpos := by
    rw [listMin, ← List.coe_minimum_of_length_pos hpos]
    rfl
  rw [hcoe]
  exact ⟨List.minimum_of_length_pos_mem hpos,
    fun x hx => List.minimum_of_length_pos_le_of_mem hx hpos⟩

theorem listMax_spec (l : List Nat) (h : l ≠ []) :
    listMax l ∈ l ∧ ∀ x ∈ l, x ≤ listMax l := by
  have hpos : 0 < l.length := List.length_pos.mpr h
  have hcoe : listMax l = l.maximum_of_length_pos hpos := by
    rw [listMax, ← List.coe_maximum_of_length_pos hpos]
    rfl
  rw [hcoe]
  exact ⟨List.maximum_of_length_pos_mem hpos,
    fun x hx => List.le_maximum_of_length_pos_of_mem hx hpos⟩

/-- C4: for every nonempty event list, the normalized star series is a dense
calendar-day series: the earliest and latest bounds are genuine min and max of
the event dates, the series has one record per day (no duplicate dates)
spanning exactly the days between them inclusive, each record carries the
number of events on its day, and days without events carry new_stars = 0; in
particular events on exactly the days d and d + 5 yield 6 records of which 4
have new_stars = 0. -/
theorem c4_dense_daily_series (events : List Nat) :
    (events ≠ [] →
      listMin events ∈ events ∧ listMax events ∈ events ∧
      (∀ x ∈ events, listMin events ≤ x ∧ x ≤ listMax events) ∧
      (normalizeStars events).length = listMax events + 1 - listMin events ∧
      ((normalizeStars events).map Prod.fst).Nodup ∧
      (∀ d, d ∈ (normalizeStars events).map Prod.fst ↔
        listMin events ≤ d ∧ d ≤ listMax events) ∧
      (∀ p ∈ normalizeStars events, p.2 = events.count p.1) ∧
      (∀ p ∈ normalizeStars events, p.1 ∉ events → p.2 = 0)) ∧
    (∀ d, (normalizeStars [d, d + 5]).length = 6 ∧
      ((normalizeStars [d, d + 5]).filter (fun p => p.2 == 0)).length = 4) := by
  constructor
  · intro h
    have hminl := listMin_spec events h
    have hmaxl := listMax_spec events h
    have hlohi : listMin events ≤ listMax events := hmaxl.2 _ hminl.1
    have hfst : (normalizeStars events).map Prod.fst =
        List.range' (listMin events) (listMax events + 1 - listMin events) := by
      rw [normalizeStars, if_neg h, List.map_map]
      have hid : (Prod.fst ∘ fun d => (d, events.count d)) = fun d : Nat => d := rfl
      rw [hid, List.map_id']
    refine ⟨hminl.1, hmaxl.1, fun x hx => ⟨hminl.2 x hx, hmaxl.2 x hx⟩, ?_, ?_, ?_, ?_, ?_⟩
    · have := congrArg List.length hfst
      rw [List.length_map, List.length_range'] at this
      exact this
    · rw [hfst]
      exact List.nodup_range' _ _
    · intro d
      rw [hfst, List.mem_range'_1]
      omega
    · intro p hp
      rw [normalizeStars, if_neg h] at hp
      obtain ⟨x, _, hx2⟩ := List.mem_map.mp hp
      rw [← hx2]
    · intro p hp hout
      rw [normalizeStars, if_neg h] at hp
      obtain ⟨x, _, hx2⟩ := List.mem_map.mp hp
      rw [← hx2]
      simp only
      rw [← hx2] at hout
      exact List.count_eq_zero.mpr hout
  · intro d
    have hne : ([d, d + 5] : List Nat) ≠ [] := by simp
    have hmin : listMin [d, d + 5] = d := by
      have h : List.minimum [d, d + 5] = ((d : Nat) : WithTop Nat) := by
        rw [List.minimum_cons, List.minimum_singleton, ← WithTop.coe_min]
        exact congrArg _ (min_eq_left (Nat.le_add_right d 5))
      rw [listMin, h]
      rfl
    have hmax : listMax [d, d + 5] = d + 5 := by
      have h : List.maximum [d, d + 5] = ((d + 5 : Nat) : WithBot Nat) := by
        rw [List.maximum_cons, List.maximum_singleton, ← WithBot.coe_max]
        exact congrArg _ (max_eq_right (Nat.le_add_right d 5))
      rw [listMax, h]
      rfl
    have hn : listMax [d, d + 5] + 1 - listMin [d, d + 5] = 6 := by
      rw [hmin, hmax]
      omega
    have e0 : normalizeStars [d, d + 5] =
        (List.range' d 6).map (fun x => (x, List.count x [d, d + 5])) := by
      rw [normalizeStars, if_neg hne, hn, hmin]
    have r6 : List.range' d 6 = [d, d + 1, d + 2, d + 3, d + 4, d + 5] := rfl
    have e1 : normalizeStars [d, d + 5] =
        [(d, 1), (d + 1, 0), (d + 2, 0), (d + 3, 0), (d + 4, 0), (d + 5, 1)] := by
      rw [e0, r6]
      simp [List.count_cons]
    rw [e1]
    exact ⟨rfl, rfl⟩

/-- C4 witness: the general density property and the two-event scenario
evaluated on the concrete event list with events on days 0 and 5. -/
theorem c4_witness :
    (normalizeStars [0, 5]).length = listMax [0, 5] + 1 - listMin [0, 5] ∧
    (normalizeStars [0, 5]).length = 6 ∧
    ((normalizeStars [0, 5]).filter (fun p => p.2 == 0)).length = 4 :=
  ⟨((c4_dense_daily_series [0, 5]).1 (by decide)).2.2.2.1,
   ((c4_dense_daily_series [0, 5]).2 0).1,
   ((c4_dense_daily_series [0, 5]).2 0).2⟩

/-- C8: in the normalized star history, cumulative_stars at every index equals
the running sum of the new-star counts up to and including that index, taken
in series (date) order, and is therefore monotonically non-decreasing. -/
theorem c8_cumulative_running_sum (events : List Nat) :
    (∀ i (hi : i < (buildStarsHistory events).length),
      ((buildStarsHistory events).get ⟨i, hi⟩).cumulative_stars =
        (((normalizeStars events).map Prod.snd).take (i + 1)).sum) ∧
    (∀ i j (hi : i < (buildStarsHistory events).length)
        (hj : j < (buildStarsHistory events).length), i ≤ j →
      ((buildStarsHistory events).get ⟨i, hi⟩).cumulative_stars ≤
        ((buildStarsHistory events).get ⟨j, hj⟩).cumulative_stars) := by
  have hform : ∀ i (hi : i < (buildStarsHistory events).length),
      ((buildStarsHistory events).get ⟨i, hi⟩).cumulative_stars =
        (((normalizeStars events).map Prod.snd).take (i + 1)).sum := by
    intro i hi
    have := buildRecords_cumulative (normalizeStars events) 0 none i hi
    simpa [buildStarsHistory] using this
  refine ⟨hform, ?_⟩
  intro i j hi hj hij
  rw [hform i hi, hform j hj]
  exact sum_take_mono _ (by omega)

/-- C8 witness: for events on days 0 and 2 the history has cumulative stars
1, 1, 2; the running-sum formula and monotonicity evaluated at indices 1, 2. -/
theorem c8_witness :
    ((buildStarsHistory [0, 2]).get ⟨1, by decide⟩).cumulative_stars =
      (((normalizeStars [0, 2]).map Prod.snd).take 2).sum ∧
    ((buildStarsHistory [0, 2]).get ⟨1, by decide⟩).cumulative_stars ≤
      ((buildStarsHistory [0, 2]).get ⟨2, by decide⟩).cumulative_stars :=
  ⟨(c8_cumulative_running_sum [0, 2]).1 1 (by decide),
   (c8_cumulative_running_sum [0, 2]).2 1 2 (by decide) (by decide) (by decide)⟩

/-!
GitHub repository-stats fetch.  The fetch is modelled as a pure function of an
oracle describing the responses of the seven HTTP sub-calls: the repository
metadata call, the paginated stargazer calls (a list of (status, events)
pages — pages beyond the list are the empty 200 page the live endpoint
returns once the stargazers are exhausted), and the four auxiliary calls
(commit activity, contributors, releases, pull requests), each a status code
plus the decoded payload.  The try/except wrapper of the source makes the
function total; the early return on a non-200 metadata status is the `none`
result, modelling the (None, None) pair.
-/

/-- Code: params per_page value of the stargazer requests. -/
def stargazersPerPage : Nat := 100

/-- Code: the stargazer pagination loop.  Starting from page 1, each
iteration issues one request; it breaks (collecting nothing further) when the
status is not 200 or the decoded page is empty, otherwise it appends the page
and moves to the next one.  Returns the collected raw events together with
the number of page requests issued. -/
def paginateStars : List (Nat × List Nat) → List Nat × Nat
  | [] => ([], 1)
  | (status, items) :: rest =>
      if status ≠ 200 ∨ items = [] then ([], 1)
      else
        let r := paginateStars rest
        (items ++ r.1, r.2 + 1)

/-- Fields of the repository metadata payload used by the pipeline. -/
structure RepoInfo where
  stargazers_count : Int
  forks_count : Int
  open_issues_count : Int
  watchers_count : Int
deriving DecidableEq, Repr

/-- Oracle for one repository-stats fetch: the responses the seven sub-calls
would deliver. -/
structure GithubApi where
  repoStatus : Nat
  repoInfo : RepoInfo
  stargazerPages : List (Nat × List Nat)
  commitsStatus : Nat
  commitsData : List Nat
  contributorsStatus : Nat
  contributorsData : List Unit
  releasesStatus : Nat
  releasesData : List Unit
  prsStatus : Nat
  prsData : List Unit
deriving DecidableEq, Repr

/-- One row of the synthesized weekly time series df: the scalar metadata
counts are broadcast to every row, one row per commit-activity bucket. -/
structure Row where
  stars : Int
  forks : Int
  open_issues : Int
  watchers : Int
  weekly_commits : Nat
deriving DecidableEq, Repr

/-- Code: the df built from a date_range of len(commits_data) weekly dates,
the scalar stars/forks/open_issues/watchers counts (broadcast by pandas to
every row) and the weekly commit totals. -/
def mkDf (info : RepoInfo) (commits_data : List Nat) : List Row :=
  commits_data.map (fun w =>
    { stars := info.stargazers_count, forks := info.forks_count,
      open_issues := info.open_issues_count, watchers := info.watchers_count,
      weekly_commits := w })

/-- The repo_data dictionary after the update call: metadata plus derived
aggregates and the nested collections. -/
structure Snapshot where
  info : RepoInfo
  total_commits : Nat
  total_contributors : Nat
  total_releases : Nat
  commits_data : List Nat
  contributors_data : List Unit
  releases_data : List Unit
  prs_data : List Unit
  stars_history : List StarRecord
deriving DecidableEq, Repr

/-- Code: the body of fetch_github_stats_api after the 200 check on the
repository metadata call: stargazer pagination, the four auxiliary sub-calls
each degraded to the empty collection on a non-200 status, the derived
totals, the synthesized df and the updated repo_data. -/
def fetchGithubSuccess (api : GithubApi) : List Row × Snapshot :=
  let stars_data := (paginateStars api.stargazerPages).1
  let commits_data := if api.commitsStatus = 200 then api.commitsData else []
  let contributors_data := if api.contributorsStatus = 200 then api.contributorsData else []
  let releases_data := if api.releasesStatus = 200 then api.releasesData else []
  let prs_data := if api.prsStatus = 200 then api.prsData else []
  (mkDf api.repoInfo commits_data,
    { info := api.repoInfo
      total_commits := commits_data.sum
      total_contributors := contributors_data.length
      total_releases := releases_data.length
      commits_data := commits_data
      contributors_data := contributors_data
      releases_data := releases_data
      prs_data := prs_data
      stars_history := buildStarsHistory stars_data })

/-- Code: fetch_github_stats_api — return (None, None) when the repository
metadata call is not 200, otherwise the (df, repo_data) pair. -/
def fetch_github_stats_api (api : GithubApi) : Option (List Row × Snapshot) :=
  if api.repoStatus ≠ 200 then none else some (fetchGithubSuccess api)

/-- Home.py: stars_change = stargazers_count - df_github[stars].iloc[-7] when
len(df_github) >= 7, else 0. -/
def stars_change (stargazers_count : Int) (df : List Row) : Int :=
  if 7 ≤ df.length then
    stargazers_count - (((df.drop (df.length - 7)).head?.map Row.stars).getD 0)
  else 0

/-- Home.py: forks_change = forks_count - df_github[forks].iloc[-7] when
len(df_github) >= 7, else 0. -/
def forks_change (forks_count : Int) (df : List Row) : Int :=
  if 7 ≤ df.length then
    forks_count - (((df.drop (df.length - 7)).head?.map Row.forks).getD 0)
  else 0

/-- C3: a non-200 repository-metadata response makes the whole fetch return
the absent pair (modelled as `none`) with no exception escaping (the model is
total); with a 200 metadata response the fetch succeeds, and each auxiliary
sub-call that is not 200 degrades exactly its own collection to empty while a
200 auxiliary sub-call keeps its payload. -/
theorem c3_sub_call_isolation (api : GithubApi) :
    (api.repoStatus ≠ 200 → fetch_github_stats_api api = none) ∧
    (api.repoStatus = 200 →
      fetch_github_stats_api api = some (fetchGithubSuccess api) ∧
      (api.commitsStatus ≠ 200 → (fetchGithubSuccess api).2.commits_data = []) ∧
      (api.commitsStatus = 200 → (fetchGithubSuccess api).2.commits_data = api.commitsData) ∧
      (api.contributorsStatus ≠ 200 → (fetchGithubSuccess api).2.contributors_data = []) ∧
      (api.contributorsStatus = 200 →
        (fetchGithubSuccess api).2.contributors_data = api.contributorsData) ∧
      (api.releasesStatus ≠ 200 → (fetchGithubSuccess api).2.releases_data = []) ∧
      (api.releasesStatus = 200 → (fetchGithubSuccess api).2.releases_data = api.releasesData) ∧
      (api.prsStatus ≠ 200 → (fetchGithubSuccess api).2.prs_data = []) ∧
      (api.prsStatus = 200 → (fetchGithubSuccess api).2.prs_data = api.prsData)) := by
  constructor
  · intro h
    simp [fetch_github_stats_api, h]
  · intro h
    refine ⟨by simp [fetch_github_stats_api, h], ?_, ?_, ?_, ?_, ?_, ?_, ?_, ?_⟩ <;>
      intro h1 <;> simp [fetchGithubSuccess, h1]

/-- A concrete oracle whose repository-metadata call fails with 404. -/
def apiMetadataDown : GithubApi :=
  { repoStatus := 404
    repoInfo := { stargazers_count := 9, forks_count := 4, open_issues_count := 1, watchers_count := 9 }
    stargazerPages := []
    commitsStatus := 200, commitsData := [2, 3]
    contributorsStatus := 200, contributorsData := [(), ()]
    releasesStatus := 200, releasesData := [()]
    prsStatus := 200, prsData := [()] }

/-- A concrete oracle whose metadata call succeeds while the commit-activity
call fails with 500 and the pull-request call fails with 403. -/
def apiAuxDegraded : GithubApi :=
  { repoStatus := 200
    repoInfo := { stargazers_count := 9, forks_count := 4, open_issues_count := 1, watchers_count := 9 }
    stargazerPages := [(200, [3, 3, 5]), (200, [])]
    commitsStatus := 500, commitsData := [2, 3]
    contributorsStatus := 200, contributorsData := [(), ()]
    releasesStatus := 200, releasesData := [()]
    prsStatus := 403, prsData := [()] }

/-- C3 witness: a failing metadata call yields the absent pair; a succeeding
one with failing commit-activity and pull-request sub-calls yields a present
result with exactly those two collections empty and the others kept. -/
theorem c3_witness :
    fetch_github_stats_api apiMetadataDown = none ∧
    fetch_github_stats_api apiAuxDegraded = some (fetchGithubSuccess apiAuxDegraded) ∧
    (fetchGithubSuccess apiAuxDegraded).2.commits_data = [] ∧
    (fetchGithubSuccess apiAuxDegraded).2.prs_data = [] ∧
    (fetchGithubSuccess apiAuxDegraded).2.contributors_data = apiAuxDegraded.contributorsData ∧
    (fetchGithubSuccess apiAuxDegraded).2.releases_data = apiAuxDegraded.releasesData :=
  ⟨(c3_sub_call_isolation apiMetadataDown).1 (by decide),
   ((c3_sub_call_isolation apiAuxDegraded).2 (by decide)).1,
   ((c3_sub_call_isolation apiAuxDegraded).2 (by decide)).2.1 (by decide),
   ((c3_sub_call_isolation apiAuxDegraded).2 (by decide)).2.2.2.2.2.2.2.1 (by decide),
   ((c3_sub_call_isolation apiAuxDegraded).2 (by decide)).2.2.2.2.1 (by decide),
   ((c3_sub_call_isolation apiAuxDegraded).2 (by decide)).2.2.2.2.2.2.1 (by decide)⟩

/-- C9: the stargazer pagination requests pages of 100 items; the loop stops,
collecting nothing further, as soon as a page has a non-200 status or an
empty payload; the number of page requests is bounded by one more than the
number of pages the source can serve; and a source serving 100 items on page
1 and an empty page 2 yields exactly those 100 raw events with the loop
stopping after requesting page 2. -/
theorem c9_pagination (pages : List (Nat × List Nat)) :
    stargazersPerPage = 100 ∧
    (∀ status items rest, status ≠ 200 ∨ items = [] →
      paginateStars ((status, items) :: rest) = ([], 1)) ∧
    (paginateStars pages).2 ≤ pages.length + 1 ∧
    (∀ ev : List Nat, ev.length = 100 →
      paginateStars [(200, ev), (200, [])] = (ev, 2)) := by
  refine ⟨rfl, ?_, ?_, ?_⟩
  · intro status items rest hbad
    simp only [paginateStars, if_pos hbad]
  · induction pages with
    | nil => simp [paginateStars]
    | cons p rest ih =>
      by_cases hbad : p.1 ≠ 200 ∨ p.2 = []
      · have : paginateStars (p :: rest) = ([], 1) := by
          obtain ⟨s, items⟩ := p
          simp only [paginateStars, if_pos hbad]
        rw [this]
        simp
      · have : paginateStars (p :: rest) =
            (p.2 ++ (paginateStars rest).1, (paginateStars rest).2 + 1) := by
          obtain ⟨s, items⟩ := p
          simp only [paginateStars, if_neg hbad]
        rw [this]
        simp only [List.length_cons]
        omega
  · intro ev hev
    have hne : ev ≠ [] := by
      intro h
      rw [h] at hev
      simp at hev
    have hcond : ¬ ((200 : Nat) ≠ 200 ∨ ev = []) := by
      simp [hne]
    have h2 : paginateStars [((200 : Nat), ([] : List Nat))] = ([], 1) := by
      simp [paginateStars]
    simp only [paginateStars, if_neg hcond, h2]
    simp

/-- C9 witness: the break rule on a 404 first page, the request bound on the
empty source, and the 100-then-empty scenario on a concrete list of 100
events. -/
theorem c9_witness :
    paginateStars [(404, [7])] = ([], 1) ∧
    (paginateStars []).2 ≤ 1 ∧
    paginateStars [(200, List.replicate 100 0), (200, [])] = (List.replicate 100 0, 2) :=
  ⟨(c9_pagination []).2.1 404 [7] [] (by decide),
   (c9_pagination []).2.2.1,
   (c9_pagination []).2.2.2 (List.replicate 100 0) (by decide)⟩

theorem head_of_drop_mem {α : Type} (l : List α) (k : Nat) (x : α)
    (h : (l.drop k).head? = some x) : x ∈ l := by
  have hx : x ∈ l.drop k := by
    cases hd : l.drop k with
    | nil => rw [hd] at h; simp at h
    | cons a as =>
      rw [hd] at h
      simp at h
      simp [hd, h]
  exact List.mem_of_mem_drop hx

/-- C10: every row of the time series returned by the repository-stats fetch
carries the snapshot stargazers_count and forks_count (the scalar is
broadcast, so the columns are constant), hence whenever the series has at
least 7 rows, the derived this-week deltas for total stars and forks are 0. -/
theorem c10_constant_star_fork_columns (api : GithubApi) (df : List Row) (snap : Snapshot)
    (h : fetch_github_stats_api api = some (df, snap)) :
    (∀ r ∈ df, r.stars = api.repoInfo.stargazers_count ∧
      r.forks = api.repoInfo.forks_count) ∧
    (7 ≤ df.length →
      stars_change api.repoInfo.stargazers_count df = 0 ∧
      forks_change api.repoInfo.forks_count df = 0) := by
  have hdf : df = mkDf api.repoInfo
      (if api.commitsStatus = 200 then api.commitsData else []) := by
    by_cases hs : api.repoStatus = 200
    · rw [fetch_github_stats_api, if_neg (by simp [hs])] at h
      have hp : fetchGithubSuccess api = (df, snap) := by
        injection h
      have := congrArg Prod.fst hp
      rw [fetchGithubSuccess] at this
      exact this.symm
    · rw [fetch_github_stats_api, if_pos hs] at h
      exact absurd h (by simp)
  have hconst : ∀ r ∈ df, r.stars = api.repoInfo.stargazers_count ∧
      r.forks = api.repoInfo.forks_count := by
    intro r hr
    rw [hdf, mkDf] at hr
    obtain ⟨w, _, hw⟩ := List.mem_map.mp hr
    rw [← hw]
    exact ⟨rfl, rfl⟩
  refine ⟨hconst, ?_⟩
  intro hlen
  have hpos : 0 < (df.drop (df.length - 7)).length := by
    rw [List.length_drop]
    omega
  obtain ⟨r, hr⟩ : ∃ r, (df.drop (df.length - 7)).head? = some r := by
    cases hd : df.drop (df.length - 7) with
    | nil => rw [hd] at hpos; simp at hpos
    | cons a as => exact ⟨a, rfl⟩
  have hrmem : r ∈ df := head_of_drop_mem df (df.length - 7) r hr
  have hrs := (hconst r hrmem).1
  have hrf := (hconst r hrmem).2
  constructor
  · rw [stars_change, if_pos hlen, hr]
    simp [hrs]
  · rw [forks_change, if_pos hlen, hr]
    simp [hrf]

/-- A concrete oracle giving a 7-week commit series, for evaluating the
this-week deltas. -/
def apiSevenWeeks : GithubApi :=
  { repoStatus := 200
    repoInfo := { stargazers_count := 40, forks_count := 12, open_issues_count := 2, watchers_count := 40 }
    stargazerPages := [(200, [1, 4]), (200, [])]
    commitsStatus := 200, commitsData := [1, 2, 3, 4, 5, 6, 7]
    contributorsStatus := 200, contributorsData := [()]
    releasesStatus := 200, releasesData := [()]
    prsStatus := 200, prsData := [()] }

/-- C10 witness: on the 7-row series produced by the concrete oracle, both
this-week deltas evaluate to 0. -/
theorem c10_witness :
    stars_change apiSevenWeeks.repoInfo.stargazers_count (fetchGithubSuccess apiSevenWeeks).1 = 0 ∧
    forks_change apiSevenWeeks.repoInfo.forks_count (fetchGithubSuccess apiSevenWeeks).1 = 0 :=
  (c10_constant_star_fork_columns apiSevenWeeks (fetchGithubSuccess apiSevenWeeks).1
    (fetchGithubSuccess apiSevenWeeks).2 rfl).2 (by decide)

/-!
Lifetime download count.  The utils.py variant performs an HTTP GET against
the public statistics endpoint inside a try block: raise_for_status raises
HTTPError exactly on a 4xx or 5xx status, and that exception — like any
network failure — is a RequestException, caught by the except clause which
returns 0.  A surfaced status outside 400..599 does not raise, and the
decoded downloads fields are summed.  The app.py variant instead runs an
unguarded warehouse COUNT query and has no exception handling at all: a
query failure propagates to the caller. -/

/-- Outcome of the HTTP GET as seen by the utils.py fetch: a network failure
raising RequestException, or a response with a status code and the decoded
per-period download counts. -/
inductive HttpOutcome where
  | netError : HttpOutcome
  | response (status : Nat) (counts : List Nat) : HttpOutcome
deriving DecidableEq, Repr

/-- utils.py fetch_lifetime_downloads: returns the sum of the downloads
fields; a network failure or a status raise_for_status raises on (4xx/5xx)
is caught and yields 0. -/
def fetch_lifetime_downloads : HttpOutcome → Nat
  | .netError => 0
  | .response status counts =>
      if 400 ≤ status ∧ status < 600 then 0 else counts.sum

/-- Outcome of the warehouse COUNT query issued by the app.py variant. -/
inductive QueryOutcome where
  | queryError : QueryOutcome
  | success (total : Nat) : QueryOutcome
deriving DecidableEq, Repr

/-- app.py fetch_lifetime_downloads: an unguarded warehouse query; failure
propagates as an exception to the caller (modelled as Except.error), which
aborts the surrounding fetch handler. -/
def app_fetch_lifetime_downloads : QueryOutcome → Except Unit Nat
  | .queryError => .error ()
  | .success n => .ok n

/-- C6 counterexample: in the app.py variant a failing lifetime-download
query does not return 0 — the failure propagates and aborts the remaining
pipeline. -/
theorem c6_counterexample :
    app_fetch_lifetime_downloads .queryError = .error () ∧
    app_fetch_lifetime_downloads .queryError ≠ .ok 0 :=
  ⟨rfl, fun h => Except.noConfusion h⟩

/-- C6 amended: the utils.py lifetime-download fetch returns the default 0,
without raising, on a network failure or on any error status (4xx/5xx, the
statuses the HTTP client raises for), so it never aborts the rest of the
pipeline; the legacy app.py variant instead propagates a query failure. -/
theorem c6_lifetime_default (status : Nat) (counts : List Nat) :
    fetch_lifetime_downloads .netError = 0 ∧
    (400 ≤ status → status < 600 →
      fetch_lifetime_downloads (.response status counts) = 0) ∧
    app_fetch_lifetime_downloads .queryError = .error () := by
  refine ⟨rfl, ?_, rfl⟩
  intro h1 h2
  simp only [fetch_lifetime_downloads]
  rw [if_pos ⟨h1, h2⟩]

/-- C6 witness: a 404 response with a nonempty decoded payload yields 0. -/
theorem c6_witness : fetch_lifetime_downloads (.response 404 [7, 9]) = 0 :=
  (c6_lifetime_default 404 [7, 9]).2.1 (by decide) (by decide)

/-!
Granularity dispatch of the download-count warehouse query.  utils.py picks
the (time_group, select_time) SQL fragment pair from a dictionary keyed by
the granularity, with the daily pair as the get default; app.py uses an
if/elif chain over hourly, daily and weekly whose final else branch is the
monthly pair. -/

/-- utils.py fetch_pypi_stats: dictionary get over the four granularities
with the daily pair as default. -/
def pypiTimeGroup (granularity : String) : String × String :=
  if granularity = "hourly" then
    ("DATETIME_TRUNC(timestamp, HOUR)", "DATETIME(timestamp)")
  else if granularity = "daily" then
    ("DATE(timestamp)", "DATE(timestamp)")
  else if granularity = "weekly" then
    ("DATE_TRUNC(DATE(timestamp), WEEK)", "DATE_TRUNC(DATE(timestamp), WEEK)")
  else if granularity = "monthly" then
    ("DATE_TRUNC(DATE(timestamp), MONTH)", "DATE_TRUNC(DATE(timestamp), MONTH)")
  else
    ("DATE(timestamp)", "DATE(timestamp)")

/-- app.py fetch_pypi_stats: if/elif chain whose final else is the monthly
pair, so every granularity other than hourly, daily and weekly is grouped
monthly. -/
def app_pypiTimeGroup (granularity : String) : String × String :=
  if granularity = "hourly" then
    ("DATETIME_TRUNC(timestamp, HOUR)", "DATETIME(timestamp)")
  else if granularity = "daily" then
    ("DATE(timestamp)", "DATE(timestamp)")
  else if granularity = "weekly" then
    ("DATE_TRUNC(DATE(timestamp), WEEK)", "DATE_TRUNC(DATE(timestamp), WEEK)")
  else
    ("DATE_TRUNC(DATE(timestamp), MONTH)", "DATE_TRUNC(DATE(timestamp), MONTH)")

/-- C7 counterexample: the app.py variant maps the unknown granularity
yearly to the monthly grouping, not the daily one. -/
theorem c7_counterexample :
    app_pypiTimeGroup "yearly" =
      ("DATE_TRUNC(DATE(timestamp), MONTH)", "DATE_TRUNC(DATE(timestamp), MONTH)") ∧
    app_pypiTimeGroup "yearly" ≠ ("DATE(timestamp)", "DATE(timestamp)") := by
  constructor
  · rfl
  · decide

/-- C7 amended: in the utils.py variant every granularity outside the four
enumerated values falls back to the daily grouping; in the app.py variant
every granularity outside hourly, daily and weekly — including unknown
values — falls into the monthly branch. -/
theorem c7_granularity_fallback (g : String) :
    (g ≠ "hourly" → g ≠ "daily" → g ≠ "weekly" → g ≠ "monthly" →
      pypiTimeGroup g = ("DATE(timestamp)", "DATE(timestamp)")) ∧
    (g ≠ "hourly" → g ≠ "daily" → g ≠ "weekly" →
      app_pypiTimeGroup g =
        ("DATE_TRUNC(DATE(timestamp), MONTH)", "DATE_TRUNC(DATE(timestamp), MONTH)")) := by
  constructor
  · intro h1 h2 h3 h4
    simp [pypiTimeGroup, h1, h2, h3, h4]
  · intro h1 h2 h3
    simp [app_pypiTimeGroup, h1, h2, h3]

/-- C7 witness: the unknown granularity fortnightly evaluated through both
variants. -/
theorem c7_witness :
    pypiTimeGroup "fortnightly" = ("DATE(timestamp)", "DATE(timestamp)") ∧
    app_pypiTimeGroup "fortnightly" =
      ("DATE_TRUNC(DATE(timestamp), MONTH)", "DATE_TRUNC(DATE(timestamp), MONTH)") :=
  ⟨(c7_granularity_fallback "fortnightly").1 (by decide) (by decide) (by decide) (by decide),
   (c7_granularity_fallback "fortnightly").2 (by decide) (by decide) (by decide)⟩
